import Mathlib

/-!
# Verification of `scripts/lighthouse-audit.js`

A shallow embedding of the Lighthouse accessibility-audit CLI script.
The script is a linear pipeline: parse arguments, validate them, launch a
headless Chrome, run a Lighthouse accessibility audit, write the HTML report,
render it to a JPEG, and print a summary.

External effects (the Chrome launcher, the Lighthouse library, the host URL
parser, the filesystem, the HTML-to-image renderer and the wall clock) are
modelled by an `Oracle` record that fixes the outcome of every external call;
`runLighthouseAudit` then computes the observable `Trace` of an execution
(console output, exit code, files written, browser lifecycle) exactly as the
script's control flow dictates.

String operations are embedded char-by-char on `String.data` so that every
definition reduces in the kernel (JS `split`, `replace`, `slice`,
`toLowerCase`, `startsWith` on the ASCII inputs the script deals with).
-/

/-- JS truthiness of the script's `url` variable: it starts as `null` and the
parser may assign it a string; `!url` is true for `null` and for `""`. -/
def jsTruthy : Option String → Bool
  | none => false
  | some s => !s.isEmpty

/-- JS `s.startsWith(p)`, embedded as a prefix test on the character list. -/
def startsWithJS (s p : String) : Bool :=
  p.data.isPrefixOf s.data

/-- Characters of a JS string up to (excluding) the first `'='`. -/
def takeUntilEq : List Char → List Char
  | [] => []
  | c :: cs => if c = '=' then [] else c :: takeUntilEq cs

/-- Characters of a JS string after the first `'='`; `none` when there is no
`'='` at all. -/
def dropThroughEq : List Char → Option (List Char)
  | [] => none
  | c :: cs => if c = '=' then some cs else dropThroughEq cs

/-- JS `t.split("=")[1]`: the segment strictly between the first and the
second `'='` of `t` (so a value that itself contains `'='` is truncated).
The script only evaluates this on tokens that contain an `'='`; on a token
without one we return `""`. -/
def eqSeg (t : String) : String :=
  match dropThroughEq t.data with
  | none => ""
  | some rest => ⟨takeUntilEq rest⟩

/-- Everything after the first `'='` of `t` — what the spec's notation
`--url=<value>` denotes by `<value>`. Used only to state the spec's reading
of the parser, to be compared with the code's `eqSeg`. -/
def afterFirstEq (t : String) : String :=
  match dropThroughEq t.data with
  | none => ""
  | some rest => ⟨rest⟩

/-- JS `s.toLowerCase()` on the ASCII strings the script handles
(`Char.toLower` lowers exactly `'A'`–`'Z'`). -/
def toLowerJS (s : String) : String :=
  ⟨s.data.map Char.toLower⟩

/-- `parseArgs` (lines 12–33): one pass over `process.argv.slice(2)` carrying
the current `url` (initially `null`) and `platform` (initially `"desktop"`).
The `--url <v>` / `--platform <v>` branches read the *next* token but do not
skip it, exactly as the JS `for` loop does; the positional branch fires on a
token not starting with `"--"` while `url` is still falsy. -/
def parseArgsLoop : List String → Option String → String → Option String × String
  | [], url, platform => (url, platform)
  | a :: rest, url, platform =>
    if startsWithJS a "--url=" = true then
      parseArgsLoop rest (some (eqSeg a)) platform
    else if a = "--url" ∧ rest ≠ [] then
      parseArgsLoop rest (some (rest.headD "")) platform
    else if startsWithJS a "--platform=" = true then
      parseArgsLoop rest url (toLowerJS (eqSeg a))
    else if a = "--platform" ∧ rest ≠ [] then
      parseArgsLoop rest url (toLowerJS (rest.headD ""))
    else if startsWithJS a "--" = false ∧ jsTruthy url = false then
      parseArgsLoop rest (some a) platform
    else
      parseArgsLoop rest url platform

/-- `parseArgs()` of the script: returns `{ url, platform }`. -/
def parseArgs (args : List String) : Option String × String :=
  parseArgsLoop args none "desktop"

/-- `isValidPlatform` (lines 36–38): `["desktop","mobile"].includes(platform.toLowerCase())`. -/
def isValidPlatform (platform : String) : Bool :=
  ["desktop", "mobile"].contains (toLowerJS platform)

/-- `screenEmulation` record of the Lighthouse options (lines 96–102 / 115–121). -/
structure ScreenEmulation where
  mobile : Bool
  width : Nat
  height : Nat
  deviceScaleFactor : Nat
  disabled : Bool
deriving DecidableEq

/-- `throttling` record of the Lighthouse options (lines 103–110 / 122–129).
Rates and latencies are exact rationals (`1638.4` is the JS double `1638.4`,
which is not exactly representable in binary, but the script only ever passes
the literal through; we keep the decimal value). -/
structure Throttling where
  rttMs : ℚ
  throughputKbps : ℚ
  cpuSlowdownMultiplier : Nat
  requestLatencyMs : ℚ
  downloadThroughputKbps : ℚ
  uploadThroughputKbps : ℚ
deriving DecidableEq

/-- The platform-specific part of the Lighthouse options (lines 91–130). -/
structure PlatformConfig where
  formFactor : String
  screenEmulation : ScreenEmulation
  throttling : Throttling
deriving DecidableEq

/-- `platformConfig` (lines 91–130): the ternary
`platform === "mobile" ? {…mobile…} : {…desktop…}`. -/
def platformConfig (platform : String) : PlatformConfig :=
  if platform = "mobile" then
    { formFactor := "mobile"
      screenEmulation :=
        { mobile := true, width := 375, height := 667, deviceScaleFactor := 2
          disabled := false }
      throttling :=
        { rttMs := 150, throughputKbps := 1638.4, cpuSlowdownMultiplier := 4
          requestLatencyMs := 150, downloadThroughputKbps := 1638.4
          uploadThroughputKbps := 675 } }
  else
    { formFactor := "desktop"
      screenEmulation :=
        { mobile := false, width := 1350, height := 940, deviceScaleFactor := 1
          disabled := false }
      throttling :=
        { rttMs := 40, throughputKbps := 10240, cpuSlowdownMultiplier := 1
          requestLatencyMs := 0, downloadThroughputKbps := 0
          uploadThroughputKbps := 0 } }

/-- A puppeteer viewport: `{ width, height, deviceScaleFactor }`. -/
structure Viewport where
  width : Nat
  height : Nat
  deviceScaleFactor : Nat
deriving DecidableEq

/-- `viewportConfig` (lines 166–169): the rendering viewport of the
HTML-to-JPG conversion, selected by the same
`platform === "mobile"` ternary. -/
def viewportConfig (platform : String) : Viewport :=
  if platform = "mobile" then
    { width := 375, height := 800, deviceScaleFactor := 2 }
  else
    { width := 1200, height := 800, deviceScaleFactor := 1 }

/-- One awaited action of the `beforeScreenshot` hook passed to
`nodeHtmlToImage` (lines 179–185); the hook's body is run, in order, before
the library captures the image. -/
inductive PageAction where
  | waitForTimeout (ms : Nat)
  | setViewport (v : Viewport)
deriving DecidableEq

/-- The options object passed to `nodeHtmlToImage` (lines 171–186).
`beforeScreenshot` is the ordered list of page actions the hook awaits. -/
structure HtmlToImageOptions where
  output : String
  html : String
  type : String
  quality : Nat
  beforeScreenshot : List PageAction
deriving DecidableEq

/-- `path.join(__dirname, f)` for the simple relative file names the script
builds (no separators, no `.`/`..` segments). -/
def joinPath (dir f : String) : String :=
  dir ++ "/" ++ f

/-- The `nodeHtmlToImage({...})` call of lines 171–186, as the options record
it passes: output path `jpgFilePath`, the HTML report, `type: "jpeg"`,
`quality: 100`, and a `beforeScreenshot` hook that first awaits
`page.waitForTimeout(2000)` (the 2-second settling delay) and then awaits
`page.setViewport(viewportConfig)`. -/
def htmlToImageCall (dir baseFilename htmlReport platform : String) : HtmlToImageOptions :=
  { output := joinPath dir (baseFilename ++ ".jpg")
    html := htmlReport
    type := "jpeg"
    quality := 100
    beforeScreenshot :=
      [PageAction.waitForTimeout 2000,
       PageAction.setViewport (viewportConfig platform)] }

/-- ASCII letter-or-digit test, i.e. the JS character class `[a-zA-Z0-9]`. -/
def isAsciiAlnum (c : Char) : Bool :=
  ('a' ≤ c && c ≤ 'z') || ('A' ≤ c && c ≤ 'Z') || ('0' ≤ c && c ≤ '9')

/-- `new URL(url).hostname.replace(/[^a-zA-Z0-9]/g, "-")` (line 154), given
the hostname: every character outside `[a-zA-Z0-9]` becomes `'-'`. -/
def sanitizeDomain (hostname : String) : String :=
  ⟨hostname.data.map (fun c => if isAsciiAlnum c then c else '-')⟩

/-- The character replacement of `getTimestamp`'s `.replace(/[:.]/g, "-")`. -/
def replCP (c : Char) : Char :=
  if c = ':' ∨ c = '.' then '-' else c

/-- `getTimestamp` (lines 51–53), as a function of the ISO-8601 string
`new Date().toISOString()` returns: replace every `':'` and `'.'` by `'-'`,
then `slice(0, -5)` (drop the last five characters — for a well-formed ISO
string these are the replaced `.sssZ` millisecond/timezone suffix). -/
def getTimestamp (iso : String) : String :=
  let r : List Char := iso.data.map replCP
  ⟨r.take (r.length - 5)⟩

/-- `baseFilename` (line 155):
``lighthouse-accessibility-${domain}-${platform}-${timestamp}``. -/
def baseFilename (domain platform timestamp : String) : String :=
  "lighthouse-accessibility-" ++ domain ++ "-" ++ platform ++ "-" ++ timestamp

/-- JS `Math.round` on the exact rational value: round half towards `+∞`,
i.e. the floor of `q + 1/2` (`Rat.floor` is the computable floor on `ℚ`, and
`Rat.floor_def` identifies it with `⌊·⌋`). -/
def jsRound (q : ℚ) : ℤ :=
  Rat.floor (q + 1 / 2)

/-- JS arithmetic coercion of the possibly-`null` accessibility score in
`accessibilityScore * 100`: `null` coerces to `0`. -/
def jsNullToZero : Option ℚ → ℚ
  | none => 0
  | some q => q

/-- The filter of line 202: `audit.score !== null && audit.score < 1`. -/
def isFailedAudit : Option ℚ → Bool
  | none => false
  | some s => decide (s < 1)

/-- `failedAudits` (line 202): the number of audits with a non-null score
below `1`. -/
def failedAudits (audits : List (Option ℚ)) : Nat :=
  (audits.filter isFailedAudit).length

/-- The audit-summary block (lines 193–206): the strings passed to
`console.log`, in order. `audits` is the list of `lhr.audits` values, each
carrying its possibly-`null` score; `Object.keys(lhr.audits).length` is its
length. The `Failed Audits` line is appended only when the count is
positive. -/
def summaryLines (url platform : String) (accessibilityScore : Option ℚ)
    (audits : List (Option ℚ)) : List String :=
  let scorePercentage := jsRound (jsNullToZero accessibilityScore * 100)
  ["\n📊 Audit Summary:",
   "   URL: " ++ url,
   "   Platform: " ++ platform,
   "   Accessibility Score: " ++ toString scorePercentage ++ "/100",
   "   Total Audits: " ++ toString audits.length]
  ++ (if 0 < failedAudits audits then
        ["   Failed Audits: " ++ toString (failedAudits audits)]
      else [])

/-- The parts of a Lighthouse runner result the script reads: the HTML
`report`, `lhr.categories.accessibility.score` (possibly `null`), and the
scores of the individual `lhr.audits` (each possibly `null`, meaning "not
applicable"). -/
structure LHResult where
  report : String
  accessibilityScore : Option ℚ
  audits : List (Option ℚ)
deriving DecidableEq

/-- `Except.isOk` for the oracle outcomes below. -/
def exceptOk {ε α : Type} : Except ε α → Bool
  | .ok _ => true
  | .error _ => false

/-- The environment of one invocation: the command-line arguments and the
outcome of every external call the script makes, fixed up front.

* `argv` — `process.argv.slice(2)`;
* `urlValid` — whether `new URL(s)` succeeds (the host's generic URL parser,
  an opaque service to the script);
* `hostnameOf` — `new URL(s).hostname` for a string accepted by `urlValid`;
* `dirname` — `__dirname`;
* `iso` — `new Date().toISOString()` at the moment `getTimestamp` runs;
* `launch` — `chromeLauncher.launch(...)`: the Chrome debugging port, or a
  thrown error's message;
* `lighthouse` — the `lighthouse(url, options)` call: a thrown error's
  message, or `.ok none` when it resolves to a falsy `runnerResult`, or
  `.ok (some r)`;
* `writeHtml` — `fs.writeFile(htmlFilePath, htmlReport)`;
* `render` — `nodeHtmlToImage({...})` (the JPEG is written by the library
  exactly when this succeeds). -/
structure Oracle where
  argv : List String
  urlValid : String → Bool
  hostnameOf : String → String
  dirname : String
  iso : String
  launch : Except String Nat
  lighthouse : Except String (Option LHResult)
  writeHtml : Except String Unit
  render : Except String Unit

/-- The observable outcome of one invocation: console output, exit code,
whether Chrome was launched and whether it was killed, and the files written
to disk, in write order (the script never deletes a file). -/
structure Trace where
  stdout : List String
  stderr : List String
  exitCode : Nat
  chromeLaunched : Bool
  chromeKilled : Bool
  filesWritten : List String
deriving DecidableEq

/-- The HTML report path the script would build for an oracle
(lines 153–158): `path.join(__dirname, baseFilename + ".html")` with
`domain = sanitizeDomain (new URL(url).hostname)` and
`timestamp = getTimestamp()`. -/
def htmlFilePathOf (o : Oracle) : String :=
  joinPath o.dirname
    (baseFilename (sanitizeDomain (o.hostnameOf ((parseArgs o.argv).1.getD "")))
      (parseArgs o.argv).2 (getTimestamp o.iso) ++ ".html")

/-- The JPEG path (line 164): same base name, `.jpg` extension. -/
def jpgFilePathOf (o : Oracle) : String :=
  joinPath o.dirname
    (baseFilename (sanitizeDomain (o.hostnameOf ((parseArgs o.argv).1.getD "")))
      (parseArgs o.argv).2 (getTimestamp o.iso) ++ ".jpg")

/-- `runLighthouseAudit` (lines 56–217) plus the surrounding process
behaviour, as a function from the oracle to the observable trace.

Control flow, mirrored from the source:
1. the three validation guards each print to `console.error` and call
   `process.exit(1)` before any resource is acquired;
2. the `try` block launches Chrome, runs Lighthouse (a falsy result raises
   `"Lighthouse audit failed to return results"`), writes the HTML report,
   renders the JPEG and prints the summary;
3. the `catch` block logs `"❌ Error during audit: " + error.message` and
   calls `process.exit(1)`. In Node, `process.exit` terminates the process
   immediately — the pending `finally` block does *not* run — so on every
   throwing path `chrome.kill()` is never executed and `chromeKilled` is
   `false` even though Chrome was launched;
4. only when the `try` block completes normally does the `finally` block run
   and kill Chrome, after which the process exits with code 0. -/
def runLighthouseAudit (o : Oracle) : Trace :=
  let url? := (parseArgs o.argv).1
  let platform := (parseArgs o.argv).2
  if jsTruthy url? = false then
    { stdout :=
        ["Usage: node lighthouse-audit.js <URL> [--platform=desktop|mobile]",
         "   or: node lighthouse-audit.js --url=<URL> --platform=<desktop|mobile>",
         "Example: node lighthouse-audit.js https://example.com --platform=mobile"]
      stderr := ["❌ Error: Please provide a URL to audit"]
      exitCode := 1, chromeLaunched := false, chromeKilled := false
      filesWritten := [] }
  else
    let url := url?.getD ""
    if o.urlValid url = false then
      { stdout := [], stderr := ["❌ Error: Invalid URL provided"]
        exitCode := 1, chromeLaunched := false, chromeKilled := false
        filesWritten := [] }
    else if isValidPlatform platform = false then
      { stdout := [], stderr := ["❌ Error: Invalid platform. Use 'desktop' or 'mobile'"]
        exitCode := 1, chromeLaunched := false, chromeKilled := false
        filesWritten := [] }
    else
      let log0 :=
        ["🚀 Starting Lighthouse accessibility audit for: " ++ url,
         "📱 Platform: " ++ platform,
         "🔧 Launching Chrome..."]
      match o.launch with
      | .error msg =>
        { stdout := log0, stderr := ["❌ Error during audit: " ++ msg]
          exitCode := 1, chromeLaunched := false, chromeKilled := false
          filesWritten := [] }
      | .ok _port =>
        let log1 := log0 ++ ["platform " ++ platform, "🔍 Running Lighthouse audit..."]
        match o.lighthouse with
        | .error msg =>
          { stdout := log1, stderr := ["❌ Error during audit: " ++ msg]
            exitCode := 1, chromeLaunched := true, chromeKilled := false
            filesWritten := [] }
        | .ok none =>
          { stdout := log1
            stderr := ["❌ Error during audit: Lighthouse audit failed to return results"]
            exitCode := 1, chromeLaunched := true, chromeKilled := false
            filesWritten := [] }
        | .ok (some res) =>
          match o.writeHtml with
          | .error msg =>
            { stdout := log1, stderr := ["❌ Error during audit: " ++ msg]
              exitCode := 1, chromeLaunched := true, chromeKilled := false
              filesWritten := [] }
          | .ok _ =>
            let log2 := log1 ++
              ["📄 HTML report saved: " ++ htmlFilePathOf o,
               "🖼️  Converting HTML report to JPG..."]
            match o.render with
            | .error msg =>
              { stdout := log2, stderr := ["❌ Error during audit: " ++ msg]
                exitCode := 1, chromeLaunched := true, chromeKilled := false
                filesWritten := [htmlFilePathOf o] }
            | .ok _ =>
              { stdout := log2 ++
                  ["📸 JPG image saved: " ++ jpgFilePathOf o]
                  ++ summaryLines url platform res.accessibilityScore res.audits
                  ++ ["\n✅ Audit completed successfully!"]
                stderr := []
                exitCode := 0, chromeLaunched := true, chromeKilled := true
                filesWritten := [htmlFilePathOf o, jpgFilePathOf o] }

/-- The positional URL source of the loop, relative to an entry state: `u` is
a token of `l` not starting with `"--"`, scanned at a position where the
parse of the preceding tokens (from the entry state `(url, plat)`) still
leaves the `url` variable JS-falsy (`null` or `""`). With the initial state
this is the first non-flag token unless an earlier `--url=` / `--url` flag
(or an earlier empty token) set the URL to the empty string, which is falsy,
so scanning continues. -/
def urlPosFrom (l : List String) (url : Option String) (plat : String) (u : String) : Prop :=
  ∃ pre post, l = pre ++ u :: post ∧ startsWithJS u "--" = false ∧
    jsTruthy (parseArgsLoop pre url plat).1 = false

/-- Where a reported URL can come from, per the code: a `--url=<value>` token
(with the code's `split("=")[1]` value, `eqSeg`), the token following a
`--url` token, or positionally a non-flag token scanned while the `url`
variable is still falsy (`urlPosFrom` from the initial parser state). -/
def urlFrom (args : List String) (u : String) : Prop :=
  (∃ t ∈ args, startsWithJS t "--url=" = true ∧ u = eqSeg t) ∨
  (∃ pre post, args = pre ++ "--url" :: u :: post) ∨
  urlPosFrom args none "desktop" u

/-- Where a reported non-default platform can come from, per the code: the
lower-cased `eqSeg` value of a `--platform=<value>` token, or the lower-cased
token following a `--platform` token. -/
def platFrom (args : List String) (p : String) : Prop :=
  (∃ t ∈ args, startsWithJS t "--platform=" = true ∧ p = toLowerJS (eqSeg t)) ∨
  (∃ pre s post, args = pre ++ "--platform" :: s :: post ∧ p = toLowerJS s)

/-- Modelled from the spec: where claim C3 says a reported URL comes from —
"the first non-flag token (positional) or `--url=<value>` / `--url <value>`".
The positional source is the *first* non-flag token (every earlier token
starts with `"--"`), and `<value>` of a `--url=<value>` token is everything
after the first `'='` (`afterFirstEq`), which is what the notation
`--url=<value>` denotes. -/
def urlFromSpec (args : List String) (u : String) : Prop :=
  (∃ pre post, args = pre ++ u :: post ∧ startsWithJS u "--" = false ∧
     ∀ t ∈ pre, startsWithJS t "--" = true) ∨
  (∃ t ∈ args, startsWithJS t "--url=" = true ∧ u = afterFirstEq t) ∨
  (∃ pre post, args = pre ++ "--url" :: u :: post)

/-- "No `--platform` flag is present": no token is `--platform` and none
starts with `--platform=`. -/
abbrev noPlatformFlag (args : List String) : Prop :=
  ∀ t ∈ args, startsWithJS t "--platform=" = false ∧ t ≠ "--platform"

/-- A sample Lighthouse result used to instantiate witnesses. -/
def lhrEx : LHResult :=
  { report := "<html>report</html>"
    accessibilityScore := some (93 / 100)
    audits := [some 1, some (1 / 2), none] }

/-- Failing input for claim C1: the URL parses, Chrome launches, and the
`lighthouse` call resolves to a falsy result, so the `try` block throws
`"Lighthouse audit failed to return results"`. -/
def oC1 : Oracle :=
  { argv := ["https://example.com"]
    urlValid := fun _ => true
    hostnameOf := fun _ => "example.com"
    dirname := "/repo/scripts"
    iso := "2024-01-15T10:30:45.123Z"
    launch := .ok 9222
    lighthouse := .ok none
    writeHtml := .ok ()
    render := .ok () }

/-- Witness input for claim C4: no arguments at all. -/
def oC4 : Oracle :=
  { argv := []
    urlValid := fun _ => true
    hostnameOf := fun _ => ""
    dirname := "/repo/scripts"
    iso := "2024-01-15T10:30:45.123Z"
    launch := .ok 9222
    lighthouse := .ok (some lhrEx)
    writeHtml := .ok ()
    render := .ok () }

/-- Witness input for claim C7: everything succeeds up to and including the
HTML write, then the HTML-to-image rendering throws. -/
def oC7 : Oracle :=
  { argv := ["https://example.com"]
    urlValid := fun _ => true
    hostnameOf := fun _ => "example.com"
    dirname := "/repo/scripts"
    iso := "2024-01-15T10:30:45.123Z"
    launch := .ok 9222
    lighthouse := .ok (some lhrEx)
    writeHtml := .ok ()
    render := .error "rendering failed" }

/-! ## Helper lemmas -/

/-- Splitting a cons against an append-around-an-element decomposition. -/
theorem cons_split {α : Type} {a u : α} {l pre post : List α}
    (h : a :: l = pre ++ u :: post) :
    (pre = [] ∧ a = u ∧ l = post) ∨ ∃ pre2, pre = a :: pre2 ∧ l = pre2 ++ u :: post := by
  cases pre with
  | nil =>
    simp only [List.nil_append] at h
    injection h with h1 h2
    exact Or.inl ⟨rfl, h1, h2⟩
  | cons c pre2 =>
    simp only [List.cons_append] at h
    injection h with h1 h2
    exact Or.inr ⟨pre2, by rw [h1], h2⟩

theorem platFrom_cons (a : String) {l : List String} {p : String}
    (h : platFrom l p) : platFrom (a :: l) p := by
  rcases h with ⟨t, ht, hp⟩ | ⟨pre, s, post, hp, hp2⟩
  · exact Or.inl ⟨t, List.mem_cons_of_mem _ ht, hp⟩
  · exact Or.inr ⟨a :: pre, s, post, by rw [hp]; rfl, hp2⟩

/-- One step of the parser loop on a cons cell, for controlled unfolding. -/
theorem parseArgsLoop_cons (a : String) (rest : List String) (url : Option String)
    (platform : String) :
    parseArgsLoop (a :: rest) url platform =
      if startsWithJS a "--url=" = true then
        parseArgsLoop rest (some (eqSeg a)) platform
      else if a = "--url" ∧ rest ≠ [] then
        parseArgsLoop rest (some (rest.headD "")) platform
      else if startsWithJS a "--platform=" = true then
        parseArgsLoop rest url (toLowerJS (eqSeg a))
      else if a = "--platform" ∧ rest ≠ [] then
        parseArgsLoop rest url (toLowerJS (rest.headD ""))
      else if startsWithJS a "--" = false ∧ jsTruthy url = false then
        parseArgsLoop rest (some a) platform
      else
        parseArgsLoop rest url platform := rfl

/-- Any URL the parser loop reports was already in its accumulator, comes
from a `--url=` token, follows a `--url` token, or is a non-flag token
scanned while the running `url` is still falsy (`urlPosFrom` relative to the
entry state). -/
theorem parseArgsLoop_url_src :
    ∀ (l : List String) (url : Option String) (plat u : String),
      (parseArgsLoop l url plat).1 = some u →
      url = some u ∨
      (∃ t ∈ l, startsWithJS t "--url=" = true ∧ u = eqSeg t) ∨
      (∃ pre post, l = pre ++ "--url" :: u :: post) ∨
      urlPosFrom l url plat u := by
  intro l
  induction l with
  | nil => intro url plat u h; exact Or.inl h
  | cons a l ih =>
    intro url plat u h
    rw [parseArgsLoop_cons] at h
    split_ifs at h with c1 c2 c3 c4 c5
    · rcases ih _ _ _ h with h2 | ⟨t, ht, hp⟩ | ⟨pre, post, hp⟩ | ⟨pre, post, hl, hu, hj⟩
      · exact Or.inr (Or.inl ⟨a, List.mem_cons_self a l, c1, (Option.some.inj h2).symm⟩)
      · exact Or.inr (Or.inl ⟨t, List.mem_cons_of_mem _ ht, hp⟩)
      · exact Or.inr (Or.inr (Or.inl ⟨a :: pre, post, by rw [hp]; rfl⟩))
      · refine Or.inr (Or.inr (Or.inr ⟨a :: pre, post, by rw [hl]; rfl, hu, ?_⟩))
        rw [parseArgsLoop_cons, if_pos c1]
        exact hj
    · obtain ⟨hau, hlne⟩ := c2
      subst hau
      obtain ⟨b, l2, rfl⟩ : ∃ b l2, l = b :: l2 := by
        cases l with
        | nil => exact absurd rfl hlne
        | cons b l2 => exact ⟨b, l2, rfl⟩
      rw [List.headD_cons] at h
      rcases ih _ _ _ h with h2 | ⟨t, ht, hp⟩ | ⟨pre, post, hp⟩ | ⟨pre, post, hl, hu, hj⟩
      · have hb : b = u := Option.some.inj h2
        exact Or.inr (Or.inr (Or.inl ⟨[], l2, by rw [hb]; rfl⟩))
      · exact Or.inr (Or.inl ⟨t, List.mem_cons_of_mem _ ht, hp⟩)
      · exact Or.inr (Or.inr (Or.inl ⟨"--url" :: pre, post, by rw [hp]; rfl⟩))
      · rcases cons_split hl with ⟨hpre, hb, hpost⟩ | ⟨pre2, hpre, hl2⟩
        · exact Or.inr (Or.inr (Or.inl ⟨[], l2, by rw [hb]; rfl⟩))
        · subst hpre
          refine Or.inr (Or.inr (Or.inr ⟨"--url" :: b :: pre2, post, by rw [hl2]; rfl, hu, ?_⟩))
          rw [parseArgsLoop_cons]
          rw [if_neg (show ¬ (startsWithJS "--url" "--url=" = true) by decide)]
          rw [if_pos (show ("--url" : String) = "--url" ∧ b :: pre2 ≠ []
                from ⟨rfl, List.cons_ne_nil b pre2⟩)]
          rw [List.headD_cons]
          exact hj
    · rcases ih _ _ _ h with h2 | ⟨t, ht, hp⟩ | ⟨pre, post, hp⟩ | ⟨pre, post, hl, hu, hj⟩
      · exact Or.inl h2
      · exact Or.inr (Or.inl ⟨t, List.mem_cons_of_mem _ ht, hp⟩)
      · exact Or.inr (Or.inr (Or.inl ⟨a :: pre, post, by rw [hp]; rfl⟩))
      · have hlne : l ≠ [] := by rw [hl]; simp
        have hneU : ¬ (a = "--url" ∧ pre ≠ []) := fun hx => c2 ⟨hx.1, hlne⟩
        refine Or.inr (Or.inr (Or.inr ⟨a :: pre, post, by rw [hl]; rfl, hu, ?_⟩))
        rw [parseArgsLoop_cons, if_neg c1, if_neg hneU, if_pos c3]
        exact hj
    · obtain ⟨hap, hlne⟩ := c4
      subst hap
      obtain ⟨b, l2, rfl⟩ : ∃ b l2, l = b :: l2 := by
        cases l with
        | nil => exact absurd rfl hlne
        | cons b l2 => exact ⟨b, l2, rfl⟩
      rw [List.headD_cons] at h
      rcases ih _ _ _ h with h2 | ⟨t, ht, hp⟩ | ⟨pre, post, hp⟩ | ⟨pre, post, hl, hu, hj⟩
      · exact Or.inl h2
      · exact Or.inr (Or.inl ⟨t, List.mem_cons_of_mem _ ht, hp⟩)
      · exact Or.inr (Or.inr (Or.inl ⟨"--platform" :: pre, post, by rw [hp]; rfl⟩))
      · rcases cons_split hl with ⟨hpre, hb, hpost⟩ | ⟨pre2, hpre, hl2⟩
        · subst hpre
          refine Or.inr (Or.inr (Or.inr ⟨["--platform"], post, by rw [hb, hpost]; rfl, hu, ?_⟩))
          have hone : parseArgsLoop ["--platform"] url plat = (url, plat) := by
            rw [parseArgsLoop_cons]
            rw [if_neg (show ¬ (startsWithJS "--platform" "--url=" = true) by decide)]
            rw [if_neg (show ¬ (("--platform" : String) = "--url" ∧ ([] : List String) ≠ [])
                  from fun hx => hx.2 rfl)]
            rw [if_neg (show ¬ (startsWithJS "--platform" "--platform=" = true) by decide)]
            rw [if_neg (show ¬ (("--platform" : String) = "--platform" ∧ ([] : List String) ≠ [])
                  from fun hx => hx.2 rfl)]
            rw [if_neg (show ¬ (startsWithJS "--platform" "--" = false ∧ jsTruthy url = false)
                  from fun hx => absurd hx.1 (by decide))]
            rfl
          rw [hone]
          simpa using hj
        · subst hpre
          refine Or.inr (Or.inr (Or.inr ⟨"--platform" :: b :: pre2, post, by rw [hl2]; rfl, hu, ?_⟩))
          rw [parseArgsLoop_cons]
          rw [if_neg (show ¬ (startsWithJS "--platform" "--url=" = true) by decide)]
          rw [if_neg (show ¬ (("--platform" : String) = "--url" ∧ b :: pre2 ≠ [])
                from fun hx => absurd hx.1 (by decide))]
          rw [if_neg (show ¬ (startsWithJS "--platform" "--platform=" = true) by decide)]
          rw [if_pos (show ("--platform" : String) = "--platform" ∧ b :: pre2 ≠ []
                from ⟨rfl, List.cons_ne_nil b pre2⟩)]
          rw [List.headD_cons]
          exact hj
    · rcases ih _ _ _ h with h2 | ⟨t, ht, hp⟩ | ⟨pre, post, hp⟩ | ⟨pre, post, hl, hu, hj⟩
      · have ha : a = u := Option.some.inj h2
        refine Or.inr (Or.inr (Or.inr ⟨[], l, by rw [ha]; rfl, by rw [← ha]; exact c5.1, ?_⟩))
        simpa using c5.2
      · exact Or.inr (Or.inl ⟨t, List.mem_cons_of_mem _ ht, hp⟩)
      · exact Or.inr (Or.inr (Or.inl ⟨a :: pre, post, by rw [hp]; rfl⟩))
      · have hlne : l ≠ [] := by rw [hl]; simp
        have hneU : ¬ (a = "--url" ∧ pre ≠ []) := fun hx => c2 ⟨hx.1, hlne⟩
        have hneP : ¬ (a = "--platform" ∧ pre ≠ []) := fun hx => c4 ⟨hx.1, hlne⟩
        refine Or.inr (Or.inr (Or.inr ⟨a :: pre, post, by rw [hl]; rfl, hu, ?_⟩))
        rw [parseArgsLoop_cons, if_neg c1, if_neg hneU, if_neg c3, if_neg hneP, if_pos c5]
        exact hj
    · rcases ih _ _ _ h with h2 | ⟨t, ht, hp⟩ | ⟨pre, post, hp⟩ | ⟨pre, post, hl, hu, hj⟩
      · exact Or.inl h2
      · exact Or.inr (Or.inl ⟨t, List.mem_cons_of_mem _ ht, hp⟩)
      · exact Or.inr (Or.inr (Or.inl ⟨a :: pre, post, by rw [hp]; rfl⟩))
      · have hlne : l ≠ [] := by rw [hl]; simp
        have hneU : ¬ (a = "--url" ∧ pre ≠ []) := fun hx => c2 ⟨hx.1, hlne⟩
        have hneP : ¬ (a = "--platform" ∧ pre ≠ []) := fun hx => c4 ⟨hx.1, hlne⟩
        refine Or.inr (Or.inr (Or.inr ⟨a :: pre, post, by rw [hl]; rfl, hu, ?_⟩))
        rw [parseArgsLoop_cons, if_neg c1, if_neg hneU, if_neg c3, if_neg hneP, if_neg c5]
        exact hj

/-- The platform the parser loop reports is its accumulator or has one of the
two flag sources of `platFrom` among the remaining tokens. -/
theorem parseArgsLoop_plat_src :
    ∀ (l : List String) (url : Option String) (plat : String),
      (parseArgsLoop l url plat).2 = plat ∨ platFrom l (parseArgsLoop l url plat).2 := by
  intro l
  induction l with
  | nil => intro url plat; exact Or.inl rfl
  | cons a l ih =>
    intro url plat
    simp only [parseArgsLoop]
    split_ifs with c1 c2 c3 c4 c5
    · rcases ih (some (eqSeg a)) plat with h' | h'
      · exact Or.inl h'
      · exact Or.inr (platFrom_cons a h')
    · rcases ih (some (l.headD "")) plat with h' | h'
      · exact Or.inl h'
      · exact Or.inr (platFrom_cons a h')
    · rcases ih url (toLowerJS (eqSeg a)) with h' | h'
      · exact Or.inr (Or.inl ⟨a, List.mem_cons_self a l, c3, h'⟩)
      · exact Or.inr (platFrom_cons a h')
    · obtain ⟨b, l', rfl⟩ : ∃ b l', l = b :: l' := by
        cases l with
        | nil => exact absurd rfl c4.2
        | cons b l' => exact ⟨b, l', rfl⟩
      rcases ih url (toLowerJS ((b :: l').headD "")) with h' | h'
      · refine Or.inr (Or.inr ⟨[], b, l', by rw [c4.1]; rfl, ?_⟩)
        simpa using h'
      · exact Or.inr (platFrom_cons a h')
    · rcases ih (some a) plat with h' | h'
      · exact Or.inl h'
      · exact Or.inr (platFrom_cons a h')
    · rcases ih url plat with h' | h'
      · exact Or.inl h'
      · exact Or.inr (platFrom_cons a h')

/-- Without any `--platform` flag the parser loop leaves its platform
accumulator untouched. -/
theorem parseArgsLoop_plat_default :
    ∀ (l : List String) (url : Option String) (plat : String),
      noPlatformFlag l → (parseArgsLoop l url plat).2 = plat := by
  intro l
  induction l with
  | nil => intro url plat _; rfl
  | cons a l ih =>
    intro url plat h
    have ha := h a (List.mem_cons_self a l)
    have hl : noPlatformFlag l := fun t ht => h t (List.mem_cons_of_mem _ ht)
    simp only [parseArgsLoop]
    split_ifs with c1 c2 c3 c4 c5
    · exact ih _ _ hl
    · exact ih _ _ hl
    · exact absurd c3 (by simp [ha.1])
    · exact absurd c4.1 ha.2
    · exact ih _ _ hl
    · exact ih _ _ hl

/-- On an ISO-8601 string `secs ++ "." ++ ms ++ "Z"` with a three-character
sub-second part, `getTimestamp` drops exactly the (replaced) `.sssZ` suffix
and returns the second-granularity part with `':'`/`'.'` turned into
`'-'`. -/
theorem getTimestamp_iso (secs ms : String) (h : ms.data.length = 3) :
    getTimestamp (secs ++ "." ++ ms ++ "Z") = ⟨secs.data.map replCP⟩ := by
  have hd : (secs ++ "." ++ ms ++ "Z").data = secs.data ++ ('.' :: (ms.data ++ ['Z'])) := by
    simp [String.data_append]
  have hZ : replCP 'Z' = 'Z' := rfl
  have hdot : replCP '.' = '-' := rfl
  unfold getTimestamp
  rw [hd]
  simp only [List.map_append, List.map_cons, hZ, hdot, List.map_nil,
    List.length_append, List.length_cons, List.length_map, List.length_nil]
  have hlen : secs.data.length + (ms.data.length + 1 + 1) - 5
      = (secs.data.map replCP).length := by
    rw [h, List.length_map]; omega
  rw [hlen, List.take_left]

/-- `Rat.floor` is the floor function of the `FloorRing` instance on `ℚ`. -/
theorem ratFloor_eq_floor (q : ℚ) : Rat.floor q = ⌊q⌋ :=
  (Rat.floor_def' q).trans Rat.floor_def.symm

/-! ## Claims -/

/-- C1: the claim says the browser process is terminated on every exit path,
including when a stage after the launch throws. The code violates this: in
the `catch` block (line 211) `process.exit(1)` terminates the Node process
immediately, so the `finally` block (lines 212–216) never runs and
`chrome.kill()` is never called on a throwing path. This theorem evaluates
the model at such a failing input (`oC1`: launch succeeds, the `lighthouse`
call resolves to a falsy result, so line 146 throws): Chrome was launched,
the process exits with code 1, and the browser was never killed. -/
theorem C1_browser_not_killed_on_error :
    (runLighthouseAudit oC1).chromeLaunched = true ∧
    (runLighthouseAudit oC1).exitCode = 1 ∧
    (runLighthouseAudit oC1).chromeKilled = false ∧
    (runLighthouseAudit oC1).stderr
      = ["❌ Error during audit: Lighthouse audit failed to return results"] :=
  ⟨rfl, rfl, rfl, by decide⟩

/-- C2: for platform `"desktop"` — including the default when no
`--platform` flag is given — the resolved profile is exactly: form factor
desktop; screen emulation non-mobile 1350×940 at device-scale factor 1;
throttling effectively disabled, i.e. zero added request latency
(`requestLatencyMs = 0`), no bandwidth cap
(`downloadThroughputKbps = uploadThroughputKbps = 0`, which disables the
devtools rate limit) and CPU slowdown multiplier 1; and a rendering viewport
of 1200×800 at device-scale factor 1. The full record equality also pins the
remaining literals of the source (`rttMs 40`, `throughputKbps 10240`). -/
theorem C2_desktop_profile :
    platformConfig "desktop" =
      { formFactor := "desktop"
        screenEmulation :=
          { mobile := false, width := 1350, height := 940, deviceScaleFactor := 1
            disabled := false }
        throttling :=
          { rttMs := 40, throughputKbps := 10240, cpuSlowdownMultiplier := 1
            requestLatencyMs := 0, downloadThroughputKbps := 0
            uploadThroughputKbps := 0 } } ∧
    (platformConfig "desktop").throttling.requestLatencyMs = 0 ∧
    (platformConfig "desktop").throttling.downloadThroughputKbps = 0 ∧
    (platformConfig "desktop").throttling.uploadThroughputKbps = 0 ∧
    (platformConfig "desktop").throttling.cpuSlowdownMultiplier = 1 ∧
    viewportConfig "desktop" = { width := 1200, height := 800, deviceScaleFactor := 1 } ∧
    ∀ args : List String, noPlatformFlag args →
      (parseArgs args).2 = "desktop" ∧
      platformConfig (parseArgs args).2 = platformConfig "desktop" ∧
      viewportConfig (parseArgs args).2 = viewportConfig "desktop" := by
  refine ⟨rfl, rfl, rfl, rfl, rfl, rfl, ?_⟩
  intro args h
  have hp : (parseArgs args).2 = "desktop" := parseArgsLoop_plat_default args none "desktop" h
  exact ⟨hp, by rw [hp], by rw [hp]⟩

/-- Witness for C2 at the concrete argument list `["https://example.com"]`,
which carries no `--platform` flag. -/
theorem C2_desktop_profile_witness :
    (parseArgs ["https://example.com"]).2 = "desktop" ∧
    platformConfig (parseArgs ["https://example.com"]).2 = platformConfig "desktop" ∧
    viewportConfig (parseArgs ["https://example.com"]).2 = viewportConfig "desktop" :=
  C2_desktop_profile.2.2.2.2.2.2 ["https://example.com"] (by decide)

/-- C3, counterexample: the claim fails on the code in two ways. First, the
`<value>` of a `--url=<value>` token: for the single token
`--url=https://example.com/?next=/home`, whose value is
`https://example.com/?next=/home`, the code's `split("=")[1]` yields the
truncated `https://example.com/?next`, obtainable from none of the claim's
URL sources. Second, the "first non-flag token" qualifier: on
`["a", "--url=", "b"]` the code reports `b` — the `--url=` flag resets the
URL to the (falsy) empty string, so the positional branch fires again on a
later token — and `b` is neither the first non-flag token (`a` is), nor any
flag's value, obtainable from none of the claim's URL sources either. -/
theorem C3_cex :
    parseArgs ["--url=https://example.com/?next=/home"]
      = (some "https://example.com/?next", "desktop") ∧
    afterFirstEq "--url=https://example.com/?next=/home"
      = "https://example.com/?next=/home" ∧
    ¬ urlFromSpec ["--url=https://example.com/?next=/home"] "https://example.com/?next" ∧
    parseArgs ["a", "--url=", "b"] = (some "b", "desktop") ∧
    ¬ urlFromSpec ["a", "--url=", "b"] "b" := by
  refine ⟨by decide, by decide, ?_, by decide, ?_⟩
  · rintro (⟨pre, post, hp, hu, hflags⟩ | ⟨t, ht, h1, h2⟩ | ⟨pre, post, hp⟩)
    · rcases cons_split hp with ⟨-, h1, -⟩ | ⟨pre2, hpre, hl⟩
      · rw [← h1] at hu
        exact absurd hu (by decide)
      · simp at hl
    · rw [List.mem_singleton] at ht
      subst ht
      exact absurd h2 (by decide)
    · rcases cons_split hp with ⟨-, h1, -⟩ | ⟨pre2, hpre, hl⟩
      · exact absurd h1 (by decide)
      · simp at hl
  · rintro (⟨pre, post, hp, hu, hflags⟩ | ⟨t, ht, h1, h2⟩ | ⟨pre, post, hp⟩)
    · rcases cons_split hp with ⟨hpre, h1, -⟩ | ⟨pre1, hpre, hl⟩
      · exact absurd h1 (by decide)
      · rcases cons_split hl with ⟨hpre1, h1, -⟩ | ⟨pre2, hpre1, hl2⟩
        · exact absurd h1 (by decide)
        · rcases cons_split hl2 with ⟨hpre2, h1, hpost⟩ | ⟨pre3, hpre2, hl3⟩
          · have ha : startsWithJS "a" "--" = true := by
              refine hflags "a" ?_
              rw [hpre]
              exact List.mem_cons_self _ _
            exact absurd ha (by decide)
          · simp at hl3
    · have ht3 : t = "a" ∨ t = "--url=" ∨ t = "b" := by simpa using ht
      rcases ht3 with rfl | rfl | rfl
      · exact absurd h1 (by decide)
      · exact absurd h2 (by decide)
      · exact absurd h1 (by decide)
    · rcases cons_split hp with ⟨-, h1, -⟩ | ⟨pre1, hpre, hl⟩
      · exact absurd h1 (by decide)
      · rcases cons_split hl with ⟨-, h1, -⟩ | ⟨pre2, hpre1, hl2⟩
        · exact absurd h1 (by decide)
        · rcases cons_split hl2 with ⟨-, h1, -⟩ | ⟨pre3, hpre2, hl3⟩
          · exact absurd h1 (by decide)
          · simp at hl3

/-- C3, amended: for every argument list the parser produces
`(url, platform)` where any reported URL comes from a `--url=<value>` token
with `<value>` read as the text between the first and the second `'='` of
the token (`eqSeg`; anything from a second `'='` on is dropped), from the
token following a `--url` token, or positionally from a non-flag token
scanned while the URL is still null or empty (`urlPosFrom`) — the first
non-flag token unless an earlier `--url=` / `--url` flag or an earlier
empty token left the URL empty; any non-default platform comes from a
`--platform=<value>` token (same truncation) or the token following a
`--platform` token, case-folded to lowercase; and the platform is
`"desktop"` when no `--platform` flag is present. -/
theorem C3_parse_provenance :
    (∀ (args : List String) (u : String),
        (parseArgs args).1 = some u → urlFrom args u) ∧
    (∀ args : List String,
        (parseArgs args).2 = "desktop" ∨ platFrom args (parseArgs args).2) ∧
    (∀ args : List String, noPlatformFlag args → (parseArgs args).2 = "desktop") := by
  refine ⟨?_, ?_, ?_⟩
  · intro args u h
    rcases parseArgsLoop_url_src args none "desktop" u h with h' | h'
    · exact Option.noConfusion h'
    · exact h'
  · intro args
    exact parseArgsLoop_plat_src args none "desktop"
  · intro args h
    exact parseArgsLoop_plat_default args none "desktop" h

/-- Witness for C3's amended theorem at concrete argument lists. -/
theorem C3_parse_provenance_witness :
    urlFrom ["--url=https://example.com"] "https://example.com" ∧
    ((parseArgs ["https://example.com"]).2 = "desktop" ∨
      platFrom ["https://example.com"] (parseArgs ["https://example.com"]).2) ∧
    (parseArgs ["https://example.com"]).2 = "desktop" :=
  ⟨C3_parse_provenance.1 ["--url=https://example.com"] "https://example.com" (by decide),
   C3_parse_provenance.2.1 ["https://example.com"],
   C3_parse_provenance.2.2 ["https://example.com"] (by decide)⟩

/-- C4: whenever the URL is absent (JS-falsy), the URL fails the host URL
parser, or the platform is not case-insensitively `desktop`/`mobile`, the
run prints a diagnostic to the error stream, exits with code 1, and has no
further side effects: no browser is launched (hence none killed) and no file
is written. -/
theorem C4_validation_failure (o : Oracle)
    (h : jsTruthy (parseArgs o.argv).1 = false ∨
         o.urlValid ((parseArgs o.argv).1.getD "") = false ∨
         isValidPlatform (parseArgs o.argv).2 = false) :
    (runLighthouseAudit o).exitCode = 1 ∧
    (runLighthouseAudit o).stderr ≠ [] ∧
    (runLighthouseAudit o).chromeLaunched = false ∧
    (runLighthouseAudit o).chromeKilled = false ∧
    (runLighthouseAudit o).filesWritten = [] := by
  by_cases h1 : jsTruthy (parseArgs o.argv).1 = false
  · simp only [runLighthouseAudit, if_pos h1]
    simp
  · by_cases h2 : o.urlValid ((parseArgs o.argv).1.getD "") = false
    · simp only [runLighthouseAudit, if_neg h1, if_pos h2]
      simp
    · by_cases h3 : isValidPlatform (parseArgs o.argv).2 = false
      · simp only [runLighthouseAudit, if_neg h1, if_neg h2, if_pos h3]
        simp
      · rcases h with h | h | h
        · exact absurd h h1
        · exact absurd h h2
        · exact absurd h h3

/-- Witness for C4 at the empty argument list (`oC4`): the URL is absent. -/
theorem C4_validation_failure_witness :
    (runLighthouseAudit oC4).exitCode = 1 ∧
    (runLighthouseAudit oC4).stderr ≠ [] ∧
    (runLighthouseAudit oC4).chromeLaunched = false ∧
    (runLighthouseAudit oC4).chromeKilled = false ∧
    (runLighthouseAudit oC4).filesWritten = [] :=
  C4_validation_failure oC4 (Or.inl rfl)

/-- C5: for platform `"mobile"` — supplied in any casing, since the parser
stores the lower-cased flag value — the resolved profile is exactly: form
factor mobile; screen emulation mobile 375×667 at device-scale factor 2;
throttling with CPU slowdown multiplier 4 and throughput 1638.4 Kbps; and a
rendering viewport of 375×800 at device-scale factor 2. The last conjunct
evaluates the parser on `--platform MOBILE`. -/
theorem C5_mobile_profile :
    platformConfig "mobile" =
      { formFactor := "mobile"
        screenEmulation :=
          { mobile := true, width := 375, height := 667, deviceScaleFactor := 2
            disabled := false }
        throttling :=
          { rttMs := 150, throughputKbps := 1638.4, cpuSlowdownMultiplier := 4
            requestLatencyMs := 150, downloadThroughputKbps := 1638.4
            uploadThroughputKbps := 675 } } ∧
    viewportConfig "mobile" = { width := 375, height := 800, deviceScaleFactor := 2 } ∧
    (∀ s : String, toLowerJS s = "mobile" →
      platformConfig (toLowerJS s) = platformConfig "mobile" ∧
      viewportConfig (toLowerJS s) = viewportConfig "mobile") ∧
    parseArgs ["--url", "https://example.com", "--platform", "MOBILE"]
      = (some "https://example.com", "mobile") := by
  refine ⟨rfl, rfl, ?_, by decide⟩
  intro s hs
  rw [hs]
  exact ⟨rfl, rfl⟩

/-- Witness for C5 at the concrete casing `"MOBILE"`. -/
theorem C5_mobile_profile_witness :
    platformConfig (toLowerJS "MOBILE") = platformConfig "mobile" ∧
    viewportConfig (toLowerJS "MOBILE") = viewportConfig "mobile" :=
  C5_mobile_profile.2.2.1 "MOBILE" (by decide)

/-- C6: for every hostname, platform and invocation time (an ISO-8601 UTC
string `secs ++ "." ++ ms ++ "Z"` whose sub-second part has three digits),
the HTML file name is exactly
`lighthouse-accessibility-{domain}-{platform}-{timestamp}.html`, where
`domain` is the hostname with every character outside `[A-Za-z0-9]` replaced
by `'-'` and `timestamp` is the second-granularity part of the ISO string
with every colon and period replaced by `'-'` (the `.sssZ` sub-second and
timezone suffix is trimmed). The full path prefixes `__dirname/`, cf.
`htmlFilePathOf`. -/
theorem C6_filename (host platform secs ms : String) (h : ms.data.length = 3) :
    baseFilename (sanitizeDomain host) platform (getTimestamp (secs ++ "." ++ ms ++ "Z")) ++ ".html"
      = "lighthouse-accessibility-"
        ++ (⟨host.data.map (fun c => if isAsciiAlnum c then c else '-')⟩ : String)
        ++ "-" ++ platform ++ "-" ++ (⟨secs.data.map replCP⟩ : String) ++ ".html" := by
  rw [getTimestamp_iso secs ms h]
  rfl

/-- Witness for C6 at a concrete hostname, platform and instant. -/
theorem C6_filename_witness :
    baseFilename (sanitizeDomain "example.com") "desktop"
        (getTimestamp ("2024-01-15T10:30:45" ++ "." ++ "123" ++ "Z")) ++ ".html"
      = "lighthouse-accessibility-example-com-desktop-2024-01-15T10-30-45.html" :=
  (C6_filename "example.com" "desktop" "2024-01-15T10:30:45" "123" (by decide)).trans (by decide)

/-- C7: in every execution the files written are a prefix of
`[htmlFilePath, jpgFilePath]`, in that order — so the JPEG exists only in
runs that already wrote the HTML report; whenever the rendering stage
throws, the JPEG is never written; and in a run that reaches the rendering
stage whose rendering throws, the already-written HTML file is exactly what
remains on disk at exit (the script never deletes it). -/
theorem C7_html_before_jpg (o : Oracle) :
    ((runLighthouseAudit o).filesWritten = [] ∨
     (runLighthouseAudit o).filesWritten = [htmlFilePathOf o] ∨
     (runLighthouseAudit o).filesWritten = [htmlFilePathOf o, jpgFilePathOf o]) ∧
    (∀ msg, o.render = .error msg →
      (runLighthouseAudit o).filesWritten = [] ∨
      (runLighthouseAudit o).filesWritten = [htmlFilePathOf o]) ∧
    (∀ (port : Nat) (r : LHResult) (msg : String),
      o.launch = .ok port → o.lighthouse = .ok (some r) → o.writeHtml = .ok () →
      o.render = .error msg →
      jsTruthy (parseArgs o.argv).1 = true →
      o.urlValid ((parseArgs o.argv).1.getD "") = true →
      isValidPlatform (parseArgs o.argv).2 = true →
      (runLighthouseAudit o).filesWritten = [htmlFilePathOf o]) := by
  refine ⟨?_, ?_, ?_⟩
  · simp only [runLighthouseAudit]
    split_ifs
    · exact Or.inl rfl
    · exact Or.inl rfl
    · exact Or.inl rfl
    · cases hL : o.launch with
      | error m => exact Or.inl rfl
      | ok p =>
        cases hLh : o.lighthouse with
        | error m => exact Or.inl rfl
        | ok r? =>
          cases r? with
          | none => exact Or.inl rfl
          | some r =>
            cases hW : o.writeHtml with
            | error m => exact Or.inl rfl
            | ok u =>
              cases hR : o.render with
              | error m => exact Or.inr (Or.inl rfl)
              | ok u2 => exact Or.inr (Or.inr rfl)
  · intro msg hR
    simp only [runLighthouseAudit]
    split_ifs
    · exact Or.inl rfl
    · exact Or.inl rfl
    · exact Or.inl rfl
    · cases hL : o.launch with
      | error m => exact Or.inl rfl
      | ok p =>
        cases hLh : o.lighthouse with
        | error m => exact Or.inl rfl
        | ok r? =>
          cases r? with
          | none => exact Or.inl rfl
          | some r =>
            cases hW : o.writeHtml with
            | error m => exact Or.inl rfl
            | ok u =>
              rw [hR]
              exact Or.inr rfl
  · intro port r msg hL hLh hW hR h1 h2 h3
    have n1 : ¬ (jsTruthy (parseArgs o.argv).1 = false) := by simp [h1]
    have n2 : ¬ (o.urlValid ((parseArgs o.argv).1.getD "") = false) := by simp [h2]
    have n3 : ¬ (isValidPlatform (parseArgs o.argv).2 = false) := by simp [h3]
    simp only [runLighthouseAudit, hL, hLh, hW, hR, if_neg n1, if_neg n2, if_neg n3]

/-- Witness for C7 at the concrete input `oC7`: all stages succeed through
the HTML write, the rendering throws, and the HTML file alone is on disk. -/
theorem C7_html_before_jpg_witness :
    (runLighthouseAudit oC7).filesWritten = [htmlFilePathOf oC7] :=
  (C7_html_before_jpg oC7).2.2 9222 lhrEx "rendering failed" rfl rfl rfl rfl rfl rfl rfl

/-- C8: for every successful audit result with (non-null) accessibility
score `q`, the summary block prints the URL, the platform, the accessibility
score as the integer percentage `round (q * 100)` out of 100, the total
number of individual audits, and — only when that count is positive — the
number of audits whose score is non-null and below `1`. -/
theorem C8_summary (url platform : String) (q : ℚ) (audits : List (Option ℚ)) :
    summaryLines url platform (some q) audits =
      ["\n📊 Audit Summary:",
       "   URL: " ++ url,
       "   Platform: " ++ platform,
       "   Accessibility Score: " ++ toString (round (q * 100)) ++ "/100",
       "   Total Audits: " ++ toString audits.length]
      ++ (if 0 < (audits.filter isFailedAudit).length then
            ["   Failed Audits: " ++ toString (audits.filter isFailedAudit).length]
          else []) := by
  simp [summaryLines, failedAudits, jsRound, jsNullToZero, round_eq, ratFloor_eq_floor]

/-- C9: the rendering call first awaits the fixed 2000 ms (2 second)
settling delay and then applies the platform-derived viewport, in that
order, before the capture; its output is a JPEG (`type "jpeg"`) at maximum
encoding quality (`quality 100` on the 0–100 scale) at the sibling path of
the HTML report: same directory, same base name, `.jpg` extension. -/
theorem C9_render_stage :
    (∀ dir bf report platform : String,
      (htmlToImageCall dir bf report platform).beforeScreenshot =
        [PageAction.waitForTimeout 2000, PageAction.setViewport (viewportConfig platform)] ∧
      (htmlToImageCall dir bf report platform).type = "jpeg" ∧
      (htmlToImageCall dir bf report platform).quality = 100 ∧
      (htmlToImageCall dir bf report platform).output = joinPath dir (bf ++ ".jpg")) ∧
    (∀ o : Oracle, ∃ b : String,
      htmlFilePathOf o = b ++ ".html" ∧ jpgFilePathOf o = b ++ ".jpg") := by
  refine ⟨fun dir bf report platform => ⟨rfl, rfl, rfl, rfl⟩, fun o => ?_⟩
  refine ⟨joinPath o.dirname
      (baseFilename (sanitizeDomain (o.hostnameOf ((parseArgs o.argv).1.getD "")))
        (parseArgs o.argv).2 (getTimestamp o.iso)), ?_, ?_⟩
  · simp [htmlFilePathOf, joinPath, String.append_assoc]
  · simp [jpgFilePathOf, joinPath, String.append_assoc]

/-- C10: when the accessibility category score is `null`, the summary still
evaluates (in JS, `null * 100` coerces `null` to `0`), and the printed line
is exactly `Accessibility Score: 0/100` — no error, no distinct
"not applicable" marker. -/
theorem C10_null_score (url platform : String) (audits : List (Option ℚ)) :
    "   Accessibility Score: 0/100" ∈ summaryLines url platform none audits := by
  have h0 : jsRound (jsNullToZero none * 100) = 0 := by
    unfold jsRound jsNullToZero
    rw [ratFloor_eq_floor]
    apply Int.floor_eq_iff.mpr
    norm_num
  have h4 : ("   Accessibility Score: " ++ toString (jsRound (jsNullToZero none * 100)) ++ "/100")
      = "   Accessibility Score: 0/100" := by rw [h0]; rfl
  simp only [summaryLines]
  refine List.mem_append_left _ ?_
  rw [h4]
  exact List.mem_cons_of_mem _ (List.mem_cons_of_mem _ (List.mem_cons_of_mem _
    (List.mem_cons_self _ _)))
